import Mathlib

/-!
Shallow embedding of the Endor Labs findings API client
(`internal/api/findings.go`, `internal/api/client.go`, `main.go`).

The pure parts of the code (filter construction, field mask construction,
query-parameter assembly, response-status handling, JSON shape of the saved
output file) are translated directly.  The HTTP transport is the external
world: it is modelled as an oracle that answers the n-th page request,
carrying the page-id cursor the client sent, with either a decoded page or
an error, exactly the data `getFindingsPage` hands back to the pagination
loop in `GetFindings` / `GetFindingsForAllProjects`.
-/

set_option maxRecDepth 100000

namespace EndorApi

/-- `Finding.Meta` from `findings.go`: descriptive metadata of a finding. -/
structure FindingMeta where
  description : String
  name : String
  parentUUID : String
deriving DecidableEq, Repr, Inhabited

/-- `Finding.Spec` from `findings.go`: classification and location metadata.
The Go `map[string]string` field `LocationUrls` is modelled as an
association list. -/
structure FindingSpec where
  approximation : Bool
  dependencyFilePath : List String
  ecosystem : String
  explanation : String
  findingCategories : List String
  findingTags : List String
  level : String
  locationUrls : List (String × String)
  projectUUID : String
  relationship : String
  summary : String
  targetDependencyPackageName : String
deriving DecidableEq, Repr, Inhabited

/-- `Finding` from `findings.go`: one security finding record. -/
structure Finding where
  uuid : String
  meta : FindingMeta
  spec : FindingSpec
deriving DecidableEq, Repr, Inhabited

/-- The data of one decoded page that the pagination loop actually uses:
the `objects` list and the `next_page_id` cursor of the response envelope
(`FindingsListResponse.List`).  The loop ignores the `hasMore` boolean
returned by `getFindingsPage` (it is bound to `_`), so it is not part of
this record. -/
structure Page where
  objects : List Finding
  nextPageID : String
deriving DecidableEq, Repr, Inhabited

/-- Go's `strings.ReplaceAll(s, old, "")` where `old` is a single-character
string: every occurrence of that character is removed. -/
def replaceAllChar (s : String) (c : Char) : String :=
  ⟨s.data.filter (fun a => a ≠ c)⟩

/-- The raw-string filter template of `buildFindingsFilter`, with the exact
newlines and tab indentation of the Go source. -/
def findingsFilterTemplate : String :=
  "context.type == \"CONTEXT_TYPE_MAIN\" and (\n\t\tspec.level in [\"FINDING_LEVEL_CRITICAL\"] and \n\t\tspec.finding_tags not contains [\"FINDING_TAGS_EXCEPTION\"] and \n\t\tspec.finding_categories contains [\"FINDING_CATEGORY_VULNERABILITY\"] and \n\t\t(spec.finding_tags contains [\"FINDING_TAGS_POTENTIALLY_REACHABLE_FUNCTION\",\"FINDING_TAGS_REACHABLE_FUNCTION\"] and \n\t\tspec.finding_tags contains [\"FINDING_TAGS_REACHABLE_DEPENDENCY\"] and \n\t\tspec.finding_tags contains [\"FINDING_TAGS_FIX_AVAILABLE\"] and \n\t\tspec.finding_tags contains [\"FINDING_TAGS_NORMAL\"]) and \n\t\tspec.finding_metadata.vulnerability.spec.epss_score.probability_score >= 0.01\n\t)"

/-- `buildFindingsFilter` from `findings.go`: cleans the template by removing
all newlines and then all tabs, and prepends the `spec.project_uuid==`
clause when a project UUID is given. -/
def buildFindingsFilter (projectUUID : String) : String :=
  let baseFilter := replaceAllChar (replaceAllChar findingsFilterTemplate '\n') '\t'
  if projectUUID ≠ "" then
    "spec.project_uuid==" ++ projectUUID ++ " and " ++ baseFilter
  else
    baseFilter

/-- The raw-string field-mask template of `getFindingsFieldMask`, with the
exact newlines and tab indentation of the Go source. -/
def findingsFieldMaskTemplate : String :=
  "meta.description,\n\t\tmeta.name,\n\t\tmeta.parent_uuid,\n\t\tspec.approximation,\n\t\tspec.dependency_file_paths,\n\t\tspec.ecosystem,\n\t\tspec.explanation,\n\t\tspec.finding_categories,\n\t\tspec.finding_tags,\n\t\tspec.level,\n\t\tspec.location_urls,\n\t\tspec.project_uuid,\n\t\tspec.relationship,\n\t\tspec.summary,\n\t\tspec.target_dependency_package_name"

/-- `getFindingsFieldMask` from `findings.go`. -/
def getFindingsFieldMask : String :=
  replaceAllChar (replaceAllChar findingsFieldMaskTemplate '\n') '\t'

/-- The query parameters assembled by `getFindingsPageInternal`, in the
order the `params.Set` calls add them; `list_parameters.page_id` is added
only when `pageID` is non-empty. -/
def getFindingsPageParams (projectUUID : String) (pageSize : Nat) (pageID : String) :
    List (String × String) :=
  let params :=
    [("list_parameters.filter", buildFindingsFilter projectUUID),
     ("list_parameters.mask", getFindingsFieldMask),
     ("list_parameters.page_size", toString pageSize),
     ("list_parameters.traverse", "true")]
  if pageID ≠ "" then params ++ [("list_parameters.page_id", pageID)] else params

/-- The pagination loop shared (as textually identical copies) by
`GetFindings` and `GetFindingsForAllProjects` in `findings.go`.

`fetch n cursor` is the outcome of the n-th call to `getFindingsPage`
(1-based), carrying `cursor` as its `pageID` argument: either an error or
the decoded page.  `pageCount` is the Go `pageCount` before the `pageCount++`
at the top of the loop body, `cursor` the current `nextPageID`, `acc` the
`allFindings` accumulator.

The result is `(trace, findings, err)` where `trace` lists, in order, the
`pageID` argument of every fetch the loop performed, and `(findings, err)`
is the Go return value: on error the Go code does `return nil, err`, on
success `return allFindings, nil`.  The loop breaks when the returned
cursor is empty, or — after appending and logging — when the incremented
`pageCount` exceeds 100 (the safety check). -/
def findingsLoop (fetch : Nat → String → Except String Page)
    (pageCount : Nat) (cursor : String) (acc : List Finding) :
    List String × List Finding × Option String :=
  match fetch (pageCount + 1) cursor with
  | Except.error e => ([cursor], [], some e)
  | Except.ok page =>
    let newAcc := acc ++ page.objects
    if page.nextPageID = "" then ([cursor], newAcc, none)
    else if pageCount + 1 > 100 then ([cursor], newAcc, none)
    else
      let rest := findingsLoop fetch (pageCount + 1) page.nextPageID newAcc
      (cursor :: rest.1, rest.2)
termination_by 100 - pageCount
decreasing_by omega

/-- `GetFindings` from `findings.go`: runs the pagination loop from page
count 0, empty cursor, empty accumulator, and returns `(allFindings, err)`. -/
def GetFindings (fetch : Nat → String → Except String Page) :
    List Finding × Option String :=
  (findingsLoop fetch 0 "" []).2

/-- `GetFindingsForAllProjects` from `findings.go`: a textually identical
copy of the `GetFindings` loop whose page fetches use the empty project
UUID (`getFindingsPageForAllProjects` calls `getFindingsPageInternal` with
`projectUUID = ""`). -/
def GetFindingsForAllProjects (fetch : Nat → String → Except String Page) :
    List Finding × Option String :=
  (findingsLoop fetch 0 "" []).2

/-- The sequence of page-id cursors the pagination loop passes to its
successive page fetches (instrumentation of the same single loop run). -/
def pagerTrace (fetch : Nat → String → Except String Page) : List String :=
  (findingsLoop fetch 0 "" []).1

/-- A JSON value, the codomain of Go's `encoding/json` marshalling as used
by this program (strings, numbers, booleans, arrays, objects, null). -/
inductive Json where
  | null : Json
  | bool : Bool → Json
  | num : Int → Json
  | str : String → Json
  | arr : List Json → Json
  | obj : List (String × Json) → Json
deriving Inhabited

/-- Decode a JSON string value. -/
def Json.getStr : Json → Option String
  | Json.str s => some s
  | _ => none

/-- Decode a JSON number value (into a Go `int`). -/
def Json.getInt : Json → Option Int
  | Json.num n => some n
  | _ => none

/-- Decode a JSON boolean value. -/
def Json.getBool : Json → Option Bool
  | Json.bool b => some b
  | _ => none

/-- Whether a JSON value is `null`. -/
def Json.isNull : Json → Bool
  | Json.null => true
  | _ => false

/-- Decode one field of a JSON object the way Go's `encoding/json`
unmarshals a struct field: an absent key or a `null` value leaves the
field at its zero value `dflt`; a present value must decode with `dec`. -/
def decodeFieldOf (kvs : List (String × Json)) (key : String)
    (dec : Json → Option α) (dflt : α) : Option α :=
  match kvs.lookup key with
  | none => some dflt
  | some v => if v.isNull then some dflt else dec v

/-- Marshal a Go `[]string` field. -/
def encodeStringList (xs : List String) : Json :=
  Json.arr (xs.map Json.str)

/-- Unmarshal the elements of a JSON array as strings, failing on the
first non-string element. -/
def decodeStrings : List Json → Option (List String)
  | [] => some []
  | j :: js => do
    let s ← Json.getStr j
    let rest ← decodeStrings js
    pure (s :: rest)

/-- Unmarshal a Go `[]string` field. -/
def decodeStringList : Json → Option (List String)
  | Json.arr xs => decodeStrings xs
  | _ => none

/-- Marshal a Go `map[string]string` field (modelled as an association
list). -/
def encodeStringMap (xs : List (String × String)) : Json :=
  Json.obj (xs.map fun p => (p.1, Json.str p.2))

/-- Unmarshal the members of a JSON object as string values, failing on
the first non-string value. -/
def decodeStringPairs : List (String × Json) → Option (List (String × String))
  | [] => some []
  | p :: ps => do
    let v ← Json.getStr p.2
    let rest ← decodeStringPairs ps
    pure ((p.1, v) :: rest)

/-- Unmarshal a Go `map[string]string` field. -/
def decodeStringMap : Json → Option (List (String × String))
  | Json.obj kvs => decodeStringPairs kvs
  | _ => none

/-- Marshal `Finding.Meta` with its `json` tags, fields in declaration
order. -/
def encodeFindingMeta (m : FindingMeta) : Json :=
  Json.obj [("description", Json.str m.description),
            ("name", Json.str m.name),
            ("parent_uuid", Json.str m.parentUUID)]

/-- Unmarshal `Finding.Meta`. -/
def decodeFindingMeta : Json → Option FindingMeta
  | Json.obj kvs => do
    let description ← decodeFieldOf kvs "description" Json.getStr ""
    let name ← decodeFieldOf kvs "name" Json.getStr ""
    let parentUUID ← decodeFieldOf kvs "parent_uuid" Json.getStr ""
    pure ⟨description, name, parentUUID⟩
  | _ => none

/-- Marshal `Finding.Spec` with its `json` tags, fields in declaration
order. -/
def encodeFindingSpec (s : FindingSpec) : Json :=
  Json.obj [("approximation", Json.bool s.approximation),
            ("dependency_file_paths", encodeStringList s.dependencyFilePath),
            ("ecosystem", Json.str s.ecosystem),
            ("explanation", Json.str s.explanation),
            ("finding_categories", encodeStringList s.findingCategories),
            ("finding_tags", encodeStringList s.findingTags),
            ("level", Json.str s.level),
            ("location_urls", encodeStringMap s.locationUrls),
            ("project_uuid", Json.str s.projectUUID),
            ("relationship", Json.str s.relationship),
            ("summary", Json.str s.summary),
            ("target_dependency_package_name", Json.str s.targetDependencyPackageName)]

/-- Unmarshal `Finding.Spec`. -/
def decodeFindingSpec : Json → Option FindingSpec
  | Json.obj kvs => do
    let approximation ← decodeFieldOf kvs "approximation" Json.getBool false
    let dependencyFilePath ← decodeFieldOf kvs "dependency_file_paths" decodeStringList []
    let ecosystem ← decodeFieldOf kvs "ecosystem" Json.getStr ""
    let explanation ← decodeFieldOf kvs "explanation" Json.getStr ""
    let findingCategories ← decodeFieldOf kvs "finding_categories" decodeStringList []
    let findingTags ← decodeFieldOf kvs "finding_tags" decodeStringList []
    let level ← decodeFieldOf kvs "level" Json.getStr ""
    let locationUrls ← decodeFieldOf kvs "location_urls" decodeStringMap []
    let projectUUID ← decodeFieldOf kvs "project_uuid" Json.getStr ""
    let relationship ← decodeFieldOf kvs "relationship" Json.getStr ""
    let summary ← decodeFieldOf kvs "summary" Json.getStr ""
    let targetDependencyPackageName ←
      decodeFieldOf kvs "target_dependency_package_name" Json.getStr ""
    pure ⟨approximation, dependencyFilePath, ecosystem, explanation,
          findingCategories, findingTags, level, locationUrls, projectUUID,
          relationship, summary, targetDependencyPackageName⟩
  | _ => none

/-- Marshal a `Finding` with its `json` tags. -/
def encodeFinding (f : Finding) : Json :=
  Json.obj [("uuid", Json.str f.uuid),
            ("meta", encodeFindingMeta f.meta),
            ("spec", encodeFindingSpec f.spec)]

/-- Unmarshal a `Finding`. -/
def decodeFinding : Json → Option Finding
  | Json.obj kvs => do
    let uuid ← decodeFieldOf kvs "uuid" Json.getStr ""
    let meta ← decodeFieldOf kvs "meta" decodeFindingMeta default
    let spec ← decodeFieldOf kvs "spec" decodeFindingSpec default
    pure ⟨uuid, meta, spec⟩
  | _ => none

/-- Marshal a `[]Finding`. -/
def encodeFindings (fs : List Finding) : Json :=
  Json.arr (fs.map encodeFinding)

/-- Unmarshal the elements of a JSON array as findings, failing on the
first element that does not decode. -/
def decodeFindingList : List Json → Option (List Finding)
  | [] => some []
  | j :: js => do
    let f ← decodeFinding j
    let rest ← decodeFindingList js
    pure (f :: rest)

/-- Unmarshal a `[]Finding`. -/
def decodeFindings : Json → Option (List Finding)
  | Json.arr xs => decodeFindingList xs
  | _ => none

/-- The anonymous output struct of `saveFindingsToJSON` in `main.go`:
`{timestamp, project_uuid, total_findings, findings}`. -/
structure FindingsOutput where
  timestamp : String
  projectUUID : String
  totalFindings : Int
  findings : List Finding
deriving DecidableEq, Repr, Inhabited

/-- The output value `saveFindingsToJSON` builds before marshalling:
`TotalFindings` is `len(findings)`; the two timestamp-derived strings are
parameters because `time.Now()` is the external clock. -/
def mkFindingsOutput (findings : List Finding) (projectUUID timestamp : String) :
    FindingsOutput :=
  ⟨timestamp, projectUUID, findings.length, findings⟩

/-- Marshal the output struct of `saveFindingsToJSON` with its `json` tags,
fields in declaration order. -/
def encodeFindingsOutput (o : FindingsOutput) : Json :=
  Json.obj [("timestamp", Json.str o.timestamp),
            ("project_uuid", Json.str o.projectUUID),
            ("total_findings", Json.num o.totalFindings),
            ("findings", encodeFindings o.findings)]

/-- Unmarshal the output struct of `saveFindingsToJSON`. -/
def decodeFindingsOutput : Json → Option FindingsOutput
  | Json.obj kvs => do
    let timestamp ← decodeFieldOf kvs "timestamp" Json.getStr ""
    let projectUUID ← decodeFieldOf kvs "project_uuid" Json.getStr ""
    let totalFindings ← decodeFieldOf kvs "total_findings" Json.getInt 0
    let findings ← decodeFieldOf kvs "findings" decodeFindings []
    pure ⟨timestamp, projectUUID, totalFindings, findings⟩
  | _ => none

/-- `FindingsListResponse.List.Response` from `findings.go`. -/
structure ListResponseInfo where
  nextPageID : String
  nextPageToken : Int
deriving DecidableEq, Repr, Inhabited

/-- `FindingsListResponse.List` from `findings.go`. -/
structure FindingsList where
  objects : List Finding
  response : ListResponseInfo
deriving DecidableEq, Repr, Inhabited

/-- `FindingsListResponse` from `findings.go`. -/
structure FindingsListResponse where
  list : FindingsList
deriving DecidableEq, Repr, Inhabited

/-- Unmarshal `FindingsListResponse.List.Response`. -/
def decodeListResponseInfo : Json → Option ListResponseInfo
  | Json.obj kvs => do
    let nextPageID ← decodeFieldOf kvs "next_page_id" Json.getStr ""
    let nextPageToken ← decodeFieldOf kvs "next_page_token" Json.getInt 0
    pure ⟨nextPageID, nextPageToken⟩
  | _ => none

/-- Unmarshal `FindingsListResponse.List`. -/
def decodeFindingsList : Json → Option FindingsList
  | Json.obj kvs => do
    let objects ← decodeFieldOf kvs "objects" decodeFindings []
    let response ← decodeFieldOf kvs "response" decodeListResponseInfo default
    pure ⟨objects, response⟩
  | _ => none

/-- Unmarshal a `FindingsListResponse`. -/
def decodeFindingsListResponse : Json → Option FindingsListResponse
  | Json.obj kvs => do
    let list ← decodeFieldOf kvs "list" decodeFindingsList default
    pure ⟨list⟩
  | _ => none

/-- The response handling of `getFindingsPageInternal` after
`httpClient.Do` succeeds: a non-200 status is reported as
`failed to fetch findings with status: <code>`; otherwise the body is
decoded and `(objects, nextPageID, hasMore)` is returned with
`hasMore := nextPageID != ""`. -/
def processFindingsResponse (status : Nat) (body : Json) :
    Except String (List Finding × String × Bool) :=
  if status ≠ 200 then
    Except.error ("failed to fetch findings with status: " ++ toString status)
  else
    match decodeFindingsListResponse body with
    | none => Except.error "failed to decode response"
    | some resp =>
      Except.ok (resp.list.objects, resp.list.response.nextPageID,
                 resp.list.response.nextPageID != "")

/-- A page-fetch oracle obtained from an HTTP transport oracle: the
transport answers the n-th request (carrying cursor `c`) with a status
code and a body, and the page fetch processes that response exactly as
`getFindingsPageInternal` does, keeping the data the pagination loop
uses. -/
def fetchOfTransport (transport : Nat → String → Nat × Json) :
    Nat → String → Except String Page :=
  fun n c =>
    match processFindingsResponse (transport n c).1 (transport n c).2 with
    | Except.error e => Except.error e
    | Except.ok r => Except.ok ⟨r.1, r.2.1⟩

/-- The page-id cursors a run through the pages `ps` uses: the first
request carries `cursor`, each later request the previous page's
`nextPageID`. -/
def cursorsOf (cursor : String) : List Page → List String
  | [] => []
  | p :: ps => cursor :: cursorsOf p.nextPageID ps


/-- Mock page fetch that always succeeds with an empty page and the
non-empty cursor `next` (a server that never reports exhaustion). -/
def alwaysMore : Nat → String → Except String Page :=
  fun _ _ => Except.ok ⟨[], "next"⟩

/-- Mock page fetch whose pages 1 to 101 carry the non-empty cursor
`next` and whose page 102 is the first to carry an empty cursor. -/
def fetch102 : Nat → String → Except String Page :=
  fun k _ => Except.ok ⟨[], if 102 ≤ k then "" else "next"⟩

/-- A mock transport that answers every request with HTTP status 500 and
an empty body. -/
def transport500 : Nat → String → Nat × Json :=
  fun _ _ => (500, Json.null)

/-- First sample finding of the mocked two-page scenario. -/
def f1 : Finding := ⟨"finding-1", default, default⟩

/-- Second sample finding of the mocked two-page scenario. -/
def f2 : Finding := ⟨"finding-2", default, default⟩

/-- Third sample finding of the mocked two-page scenario. -/
def f3 : Finding := ⟨"finding-3", default, default⟩

/-- The mocked two-page sequence: page 1 returns two findings and cursor
`abc`, page 2 returns one finding and an empty cursor. -/
def pages2 : List Page := [⟨[f1, f2], "abc"⟩, ⟨[f3], ""⟩]

/-- Mock page fetch serving `pages2` by request number. -/
def fetchTwoPages : Nat → String → Except String Page :=
  fun k _ => Except.ok (pages2.getD (k - 1) default)

example : findingsLoop (fun _ _ => Except.ok ⟨[], ""⟩) 0 "" [] = ([""], [], none) := by
  unfold findingsLoop
  simp

example : buildFindingsFilter "" =
    "context.type == \"CONTEXT_TYPE_MAIN\" and (spec.level in [\"FINDING_LEVEL_CRITICAL\"] and spec.finding_tags not contains [\"FINDING_TAGS_EXCEPTION\"] and spec.finding_categories contains [\"FINDING_CATEGORY_VULNERABILITY\"] and (spec.finding_tags contains [\"FINDING_TAGS_POTENTIALLY_REACHABLE_FUNCTION\",\"FINDING_TAGS_REACHABLE_FUNCTION\"] and spec.finding_tags contains [\"FINDING_TAGS_REACHABLE_DEPENDENCY\"] and spec.finding_tags contains [\"FINDING_TAGS_FIX_AVAILABLE\"] and spec.finding_tags contains [\"FINDING_TAGS_NORMAL\"]) and spec.finding_metadata.vulnerability.spec.epss_score.probability_score >= 0.01)" := by
  decide

example : "HIGH".data <:+: "AHIGHB".data := by decide

example : ¬ ("HIGH".data <:+: (buildFindingsFilter "").data) := by decide


theorem findingsLoop_trace_cons (fetch : Nat → String → Except String Page)
    (pageCount : Nat) (cursor : String) (acc : List Finding) :
    ∃ tl, (findingsLoop fetch pageCount cursor acc).1 = cursor :: tl := by
  unfold findingsLoop
  split
  · exact ⟨[], rfl⟩
  · dsimp only
    split
    · exact ⟨[], rfl⟩
    · split
      · exact ⟨[], rfl⟩
      · exact ⟨_, rfl⟩

theorem findingsLoop_chain (fetch : Nat → String → Except String Page)
    (pageCount : Nat) (cursor : String) (acc : List Finding) :
    ∀ i, i + 1 < (findingsLoop fetch pageCount cursor acc).1.length →
      ∃ p, fetch (pageCount + 1 + i) ((findingsLoop fetch pageCount cursor acc).1.getD i "") =
             Except.ok p ∧
           (findingsLoop fetch pageCount cursor acc).1.getD (i + 1) "" = p.nextPageID := by
  intro i hi
  rcases hf : fetch (pageCount + 1) cursor with e | page
  · rw [findingsLoop] at hi
    simp only [hf] at hi
    simp at hi
  · by_cases hempty : page.nextPageID = ""
    · rw [findingsLoop] at hi
      simp only [hf, if_pos hempty] at hi
      simp at hi
    · by_cases hbound : pageCount + 1 > 100
      · rw [findingsLoop] at hi
        simp only [hf, if_neg hempty, if_pos hbound] at hi
        simp at hi
      · have hrw : (findingsLoop fetch pageCount cursor acc).1 =
            cursor :: (findingsLoop fetch (pageCount + 1) page.nextPageID (acc ++ page.objects)).1 := by
          rw [findingsLoop]
          simp only [hf, if_neg hempty, if_pos hbound]
          simp [hbound]
        rw [hrw] at hi ⊢
        match i with
        | 0 =>
          obtain ⟨tl, htl⟩ :=
            findingsLoop_trace_cons fetch (pageCount + 1) page.nextPageID (acc ++ page.objects)
          refine ⟨page, ?_, ?_⟩
          · simpa using hf
          · simp [htl]
        | j + 1 =>
          have hj : j + 1 <
              (findingsLoop fetch (pageCount + 1) page.nextPageID (acc ++ page.objects)).1.length := by
            simpa using Nat.lt_of_succ_lt_succ hi
          obtain ⟨p, hp, hgd⟩ :=
            findingsLoop_chain fetch (pageCount + 1) page.nextPageID (acc ++ page.objects) j hj
          refine ⟨p, ?_, ?_⟩
          · have harith : pageCount + 1 + (j + 1) = pageCount + 1 + 1 + j := by omega
            rw [harith]
            simpa using hp
          · simpa using hgd
termination_by 100 - pageCount

theorem findingsLoop_allOk (fetch : Nat → String → Except String Page)
    (pageCount : Nat) (cursor : String) (acc : List Finding)
    (h : ∀ n c, n ≤ 101 → ∃ p, fetch n c = Except.ok p ∧ p.nextPageID ≠ "")
    (hpc : pageCount ≤ 100) :
    (findingsLoop fetch pageCount cursor acc).1.length = 101 - pageCount ∧
    (findingsLoop fetch pageCount cursor acc).2.2 = none := by
  obtain ⟨p, hf, hne⟩ := h (pageCount + 1) cursor (by omega)
  by_cases hbound : pageCount + 1 > 100
  · rw [findingsLoop]
    simp only [hf]
    rw [if_neg hne, if_pos hbound]
    constructor
    · simp
      omega
    · rfl
  · have ih := findingsLoop_allOk fetch (pageCount + 1) p.nextPageID (acc ++ p.objects) h
      (by omega)
    rw [findingsLoop]
    simp only [hf]
    rw [if_neg hne, if_neg hbound]
    constructor
    · simp only [List.length_cons, ih.1]
      omega
    · exact ih.2
termination_by 100 - pageCount

theorem findingsLoop_length_le (fetch : Nat → String → Except String Page)
    (pageCount : Nat) (cursor : String) (acc : List Finding) :
    (findingsLoop fetch pageCount cursor acc).1.length ≤ max 1 (101 - pageCount) := by
  rcases hf : fetch (pageCount + 1) cursor with e | page
  · rw [findingsLoop]
    simp [hf]
  · by_cases hempty : page.nextPageID = ""
    · rw [findingsLoop]
      simp [hf, hempty]
    · by_cases hbound : pageCount + 1 > 100
      · rw [findingsLoop]
        simp [hf, if_neg hempty, hbound]
      · have ih := findingsLoop_length_le fetch (pageCount + 1) page.nextPageID
          (acc ++ page.objects)
        rw [findingsLoop]
        simp only [hf, if_neg hempty, if_neg hbound]
        simp only [List.length_cons]
        omega
termination_by 100 - pageCount

theorem length_cursorsOf (cursor : String) (ps : List Page) :
    (cursorsOf cursor ps).length = ps.length := by
  induction ps generalizing cursor with
  | nil => rfl
  | cons p ps ih => simp [cursorsOf, ih]

theorem findingsLoop_run (fetch : Nat → String → Except String Page)
    (ps : List Page) :
    ∀ (pageCount : Nat) (cursor : String) (acc : List Finding),
      ps ≠ [] →
      pageCount + ps.length ≤ 101 →
      (∀ i c, i < ps.length → fetch (pageCount + 1 + i) c = Except.ok (ps.getD i default)) →
      (∀ i, i + 1 < ps.length → (ps.getD i default).nextPageID ≠ "") →
      (ps.getD (ps.length - 1) default).nextPageID = "" →
      findingsLoop fetch pageCount cursor acc =
        (cursorsOf cursor ps, acc ++ (ps.map Page.objects).flatten, none) := by
  induction ps with
  | nil => intro _ _ _ hne; exact absurd rfl hne
  | cons p ps ih =>
    intro pageCount cursor acc _ hbound hfetch hmid hlast
    have hf : fetch (pageCount + 1) cursor = Except.ok p := by
      have := hfetch 0 cursor (by simp)
      simpa using this
    rcases ps with _ | ⟨q, qs⟩
    · have hp : p.nextPageID = "" := by simpa using hlast
      rw [findingsLoop]
      simp [hf, hp, cursorsOf]
    · have hpne : p.nextPageID ≠ "" := by
        have := hmid 0 (by simp)
        simpa using this
      have hb2 : ¬ pageCount + 1 > 100 := by
        simp only [List.length_cons] at hbound
        omega
      have hrec := ih (pageCount + 1) p.nextPageID (acc ++ p.objects)
        (by simp)
        (by simp only [List.length_cons] at hbound ⊢; omega)
        (fun i c hi => by
          have := hfetch (i + 1) c (by simpa using Nat.succ_lt_succ hi)
          have harith : pageCount + 1 + (i + 1) = pageCount + 1 + 1 + i := by omega
          rw [harith] at this
          simpa using this)
        (fun i hi => by
          have := hmid (i + 1) (by simpa using Nat.succ_lt_succ hi)
          simpa using this)
        (by simpa using hlast)
      rw [findingsLoop]
      simp only [hf, if_neg hpne, if_neg hb2]
      simp [hrec, cursorsOf]

theorem findingsLoop_errorRun (fetch : Nat → String → Except String Page)
    (ps : List Page) :
    ∀ (pageCount : Nat) (cursor : String) (acc : List Finding) (e : String),
      pageCount + ps.length + 1 ≤ 101 →
      (∀ i c, i < ps.length → fetch (pageCount + 1 + i) c = Except.ok (ps.getD i default)) →
      (∀ i, i < ps.length → (ps.getD i default).nextPageID ≠ "") →
      (∀ c, fetch (pageCount + 1 + ps.length) c = Except.error e) →
      (findingsLoop fetch pageCount cursor acc).2 = ([], some e) ∧
      (findingsLoop fetch pageCount cursor acc).1.length = ps.length + 1 := by
  induction ps with
  | nil =>
    intro pageCount cursor acc e _ _ _ herr
    have hf : fetch (pageCount + 1) cursor = Except.error e := by
      have := herr cursor
      simpa using this
    rw [findingsLoop]
    simp [hf]
  | cons p ps ih =>
    intro pageCount cursor acc e hbound hfetch hmid herr
    have hf : fetch (pageCount + 1) cursor = Except.ok p := by
      have := hfetch 0 cursor (by simp)
      simpa using this
    have hpne : p.nextPageID ≠ "" := by
      have := hmid 0 (by simp)
      simpa using this
    have hb2 : ¬ pageCount + 1 > 100 := by
      simp only [List.length_cons] at hbound
      omega
    have hrec := ih (pageCount + 1) p.nextPageID (acc ++ p.objects) e
      (by simp only [List.length_cons] at hbound; omega)
      (fun i c hi => by
        have := hfetch (i + 1) c (by simpa using Nat.succ_lt_succ hi)
        have harith : pageCount + 1 + (i + 1) = pageCount + 1 + 1 + i := by omega
        rw [harith] at this
        simpa using this)
      (fun i hi => by
        have := hmid (i + 1) (by simpa using Nat.succ_lt_succ hi)
        simpa using this)
      (fun c => by
        have := herr c
        have harith : pageCount + 1 + (p :: ps).length = pageCount + 1 + 1 + ps.length := by
          simp only [List.length_cons]
          omega
        rw [harith] at this
        simpa using this)
    rw [findingsLoop]
    simp only [hf, if_neg hpne, if_neg hb2]
    constructor
    · simpa using hrec.1
    · simp only [List.length_cons]
      simp [hrec.2]

theorem isNull_str (s : String) : (Json.str s).isNull = false := rfl

theorem isNull_bool (b : Bool) : (Json.bool b).isNull = false := rfl

theorem isNull_num (n : Int) : (Json.num n).isNull = false := rfl

theorem isNull_encodeStringList (xs : List String) :
    (encodeStringList xs).isNull = false := rfl

theorem isNull_encodeStringMap (xs : List (String × String)) :
    (encodeStringMap xs).isNull = false := rfl

theorem isNull_encodeFindingMeta (m : FindingMeta) :
    (encodeFindingMeta m).isNull = false := rfl

theorem isNull_encodeFindingSpec (s : FindingSpec) :
    (encodeFindingSpec s).isNull = false := rfl

theorem isNull_encodeFindings (fs : List Finding) :
    (encodeFindings fs).isNull = false := rfl

theorem decodeStrings_map_str (xs : List String) :
    decodeStrings (xs.map Json.str) = some xs := by
  induction xs with
  | nil => rfl
  | cons x xs ih => simp [decodeStrings, Json.getStr, ih]

theorem decodeStringList_encode (xs : List String) :
    decodeStringList (encodeStringList xs) = some xs := by
  simp [decodeStringList, encodeStringList, decodeStrings_map_str]

theorem decodeStringPairs_map_str (xs : List (String × String)) :
    decodeStringPairs (xs.map fun p => (p.1, Json.str p.2)) = some xs := by
  induction xs with
  | nil => rfl
  | cons x xs ih => simp [decodeStringPairs, Json.getStr, ih]

theorem decodeStringMap_encode (xs : List (String × String)) :
    decodeStringMap (encodeStringMap xs) = some xs := by
  simp [decodeStringMap, encodeStringMap, decodeStringPairs_map_str]

theorem decodeFindingMeta_encode (m : FindingMeta) :
    decodeFindingMeta (encodeFindingMeta m) = some m := rfl

theorem decodeFindingSpec_encode (s : FindingSpec) :
    decodeFindingSpec (encodeFindingSpec s) = some s := by
  cases s
  simp [encodeFindingSpec, decodeFindingSpec, decodeFieldOf, List.lookup,
        isNull_str, isNull_bool, isNull_encodeStringList, isNull_encodeStringMap,
        decodeStringList_encode, decodeStringMap_encode, Json.getStr, Json.getBool]

theorem decodeFinding_encode (f : Finding) :
    decodeFinding (encodeFinding f) = some f := by
  cases f
  simp [encodeFinding, decodeFinding, decodeFieldOf, List.lookup,
        isNull_str, isNull_encodeFindingMeta, isNull_encodeFindingSpec,
        decodeFindingMeta_encode, decodeFindingSpec_encode, Json.getStr]

theorem decodeFindingList_map (fs : List Finding) :
    decodeFindingList (fs.map encodeFinding) = some fs := by
  induction fs with
  | nil => rfl
  | cons f fs ih => simp [decodeFindingList, decodeFinding_encode, ih]

theorem decodeFindings_encode (fs : List Finding) :
    decodeFindings (encodeFindings fs) = some fs := by
  simp [decodeFindings, encodeFindings, decodeFindingList_map]

theorem decodeFindingsOutput_encode (o : FindingsOutput) :
    decodeFindingsOutput (encodeFindingsOutput o) = some o := by
  cases o
  simp [encodeFindingsOutput, decodeFindingsOutput, decodeFieldOf, List.lookup,
        isNull_str, isNull_num, isNull_encodeFindings,
        decodeFindings_encode, Json.getStr, Json.getInt]

/-- Claim C1, counterexample: the claim asserts that the all-projects
filter (`buildFindingsFilter` with an empty project UUID) contains no
`project_uuid==` clause and contains both `CRITICAL` and `HIGH` in its
severity clause; this is false because the string `HIGH` does not occur
anywhere in the generated filter. -/
theorem allProjectsFilter_claim_false :
    ¬ (¬ ("project_uuid==".data <:+: (buildFindingsFilter "").data) ∧
       "CRITICAL".data <:+: (buildFindingsFilter "").data ∧
       "HIGH".data <:+: (buildFindingsFilter "").data) := by
  intro h
  exact absurd h.2.2 (by decide)

/-- Claim C1, amended: for all-projects mode (`GetFindingsForAllProjects`,
i.e. `buildFindingsFilter` called with an empty project UUID), the
generated filter contains no `project_uuid==` clause, its severity-level
membership clause is the CRITICAL-only test
`spec.level in ["FINDING_LEVEL_CRITICAL"]`, and `HIGH` occurs nowhere in
the filter. -/
theorem allProjectsFilter_no_project_clause_critical_only :
    ¬ ("project_uuid==".data <:+: (buildFindingsFilter "").data) ∧
    ("spec.level in [\"FINDING_LEVEL_CRITICAL\"]".data <:+: (buildFindingsFilter "").data) ∧
    ¬ ("HIGH".data <:+: (buildFindingsFilter "").data) :=
  ⟨by decide, by decide, by decide⟩

/-- Claim C3: for single-project mode with project UUID `P1`, the
generated filter contains `project_uuid==P1`, the CRITICAL-only severity
clause `spec.level in ["FINDING_LEVEL_CRITICAL"]`, and does not contain
`HIGH` anywhere. -/
theorem singleProjectFilter_P1 :
    ("project_uuid==P1".data <:+: (buildFindingsFilter "P1").data) ∧
    ("spec.level in [\"FINDING_LEVEL_CRITICAL\"]".data <:+: (buildFindingsFilter "P1").data) ∧
    ¬ ("HIGH".data <:+: (buildFindingsFilter "P1").data) :=
  ⟨by decide, by decide, by decide⟩

/-- Claim C9: for every non-empty project UUID `p`, the single-project
filter is exactly `spec.project_uuid==` ++ `p` ++ ` and ` followed by the
all-projects filter, so the two modes share an identical base filter. -/
theorem buildFindingsFilter_split (p : String) (h : p ≠ "") :
    buildFindingsFilter p =
      "spec.project_uuid==" ++ p ++ " and " ++ buildFindingsFilter "" := by
  simp [buildFindingsFilter, h]

/-- Witness for claim C9 at the concrete project UUID `P1`. -/
theorem buildFindingsFilter_split_witness :
    ("P1" : String) ≠ "" ∧
    buildFindingsFilter "P1" =
      "spec.project_uuid==" ++ "P1" ++ " and " ++ buildFindingsFilter "" :=
  ⟨by decide, buildFindingsFilter_split "P1" (by decide)⟩

/-- Claim C8: the page request built by `getFindingsPageInternal` carries
the `list_parameters.page_id` query parameter exactly when the cursor is
non-empty; with an empty cursor the parameter is absent altogether. -/
theorem pageParams_page_id_iff (projectUUID : String) (pageSize : Nat) (pageID : String) :
    (getFindingsPageParams projectUUID pageSize pageID).lookup "list_parameters.page_id" =
      if pageID = "" then none else some pageID := by
  by_cases h : pageID = ""
  · subst h
    simp [getFindingsPageParams, List.lookup]
  · rw [if_neg h]
    simp [getFindingsPageParams, h, List.lookup]

/-- Claim C7: marshalling the timestamped output structure built by
`saveFindingsToJSON` and unmarshalling it back yields the same total
count and the same finding identifiers in the same order. -/
theorem saveFindings_roundTrip (fs : List Finding) (projectUUID timestamp : String) :
    ∃ o, decodeFindingsOutput (encodeFindingsOutput (mkFindingsOutput fs projectUUID timestamp)) =
           some o ∧
         o.totalFindings = fs.length ∧
         o.findings.map Finding.uuid = fs.map Finding.uuid :=
  ⟨mkFindingsOutput fs projectUUID timestamp, decodeFindingsOutput_encode _, rfl, rfl⟩

/-- Claim C2, counterexample: against a server that always returns a
non-empty next-page cursor (`alwaysMore`), the pager performs 101 page
fetches, not the 100 the claim states. -/
theorem pagerBound_claim_false :
    (pagerTrace alwaysMore).length = 101 ∧ (pagerTrace alwaysMore).length ≠ 100 := by
  have h := (findingsLoop_allOk alwaysMore 0 "" []
    (fun n c _ => ⟨⟨[], "next"⟩, rfl, by decide⟩) (by omega)).1
  unfold pagerTrace
  omega

/-- Claim C2, amended: when every page fetch succeeds with a non-empty
next-page cursor, the pager (`GetFindings` / `GetFindingsForAllProjects`)
stops after exactly 101 page fetches, not more, and returns the
accumulated findings with a nil error (successful termination, not a
failure). -/
theorem pager_bound_is_success (fetch : Nat → String → Except String Page)
    (h : ∀ n c, n ≤ 101 → ∃ p, fetch n c = Except.ok p ∧ p.nextPageID ≠ "") :
    (pagerTrace fetch).length = 101 ∧
    (GetFindings fetch).2 = none ∧
    (GetFindingsForAllProjects fetch).2 = none := by
  have h2 := findingsLoop_allOk fetch 0 "" [] h (by omega)
  refine ⟨?_, h2.2, h2.2⟩
  unfold pagerTrace
  omega

/-- Witness for claim C2 (amended) at the concrete mock server
`alwaysMore`. -/
theorem pager_bound_is_success_witness :
    (pagerTrace alwaysMore).length = 101 ∧
    (GetFindings alwaysMore).2 = none ∧
    (GetFindingsForAllProjects alwaysMore).2 = none :=
  pager_bound_is_success alwaysMore (fun n c _ => ⟨⟨[], "next"⟩, rfl, by decide⟩)

/-- Claim C10: the pagination loop of `GetFindings` and
`GetFindingsForAllProjects` terminates for every sequence of responses:
it performs at most 101 page fetches regardless of the cursor values
returned. -/
theorem pager_at_most_101_fetches (fetch : Nat → String → Except String Page) :
    (pagerTrace fetch).length ≤ 101 := by
  have h := findingsLoop_length_le fetch 0 "" []
  unfold pagerTrace
  simpa using h

/-- Claim C4: if the page fetch fails at any iteration the pager can
reach (after `k ≤ 100` successful pages with non-empty cursors), the
pager returns immediately with that error and the nil findings list,
discarding the findings accumulated from the earlier successful pages. -/
theorem pager_error_returns_nil (fetch : Nat → String → Except String Page)
    (ps : List Page) (e : String)
    (hbound : ps.length + 1 ≤ 101)
    (hok : ∀ i c, i < ps.length → fetch (1 + i) c = Except.ok (ps.getD i default))
    (hcont : ∀ i, i < ps.length → (ps.getD i default).nextPageID ≠ "")
    (herr : ∀ c, fetch (1 + ps.length) c = Except.error e) :
    GetFindings fetch = ([], some e) ∧
    GetFindingsForAllProjects fetch = ([], some e) ∧
    (pagerTrace fetch).length = ps.length + 1 := by
  have h := findingsLoop_errorRun fetch ps 0 "" [] e (by omega)
    (fun i c hi => by simpa using hok i c hi) hcont
    (fun c => by simpa using herr c)
  exact ⟨h.1, h.1, h.2⟩

/-- Witness for claim C4: a non-200 HTTP status (500) on the first page,
processed exactly as `getFindingsPageInternal` processes it, makes the
pager return no findings and the status error. -/
theorem pager_error_returns_nil_witness :
    GetFindings (fetchOfTransport transport500) =
      ([], some "failed to fetch findings with status: 500") ∧
    GetFindingsForAllProjects (fetchOfTransport transport500) =
      ([], some "failed to fetch findings with status: 500") ∧
    (pagerTrace (fetchOfTransport transport500)).length = 1 :=
  pager_error_returns_nil (fetchOfTransport transport500) []
    "failed to fetch findings with status: 500"
    (by simp)
    (fun i c hi => absurd hi (by simp))
    (fun i hi => absurd hi (by simp))
    (fun c => by
      simp only [List.length_nil]
      simp [fetchOfTransport, transport500, processFindingsResponse]
      decide)

/-- Claim C5, counterexample: with the server `fetch102`, page 102 is the
first page to return an empty cursor (pages 1 to 101 return the cursor
`next`), yet the pager terminates after 101 fetches, not after 102 as
the claim requires. -/
theorem pagerConcat_claim_false :
    fetch102 101 "next" = Except.ok ⟨[], "next"⟩ ∧
    fetch102 102 "next" = Except.ok ⟨[], ""⟩ ∧
    (pagerTrace fetch102).length = 101 ∧
    (pagerTrace fetch102).length ≠ 102 := by
  have h := (findingsLoop_allOk fetch102 0 "" []
    (fun n c hn => ⟨⟨[], "next"⟩, by unfold fetch102; rw [if_neg (by omega)], by decide⟩)
    (by omega)).1
  refine ⟨rfl, rfl, ?_, ?_⟩ <;> (unfold pagerTrace; omega)

/-- Claim C5, amended: for every sequence of `n` pages with `1 ≤ n ≤ 101`
in which page `n` is the first to return an empty cursor, the pager
returns the concatenation of the pages' findings in server order with no
deduplication and terminates after exactly `n` fetches. -/
theorem pager_concatenates_pages (fetch : Nat → String → Except String Page)
    (ps : List Page)
    (hne : ps ≠ []) (hbound : ps.length ≤ 101)
    (hfetch : ∀ i c, i < ps.length → fetch (1 + i) c = Except.ok (ps.getD i default))
    (hmid : ∀ i, i + 1 < ps.length → (ps.getD i default).nextPageID ≠ "")
    (hlast : (ps.getD (ps.length - 1) default).nextPageID = "") :
    GetFindings fetch = ((ps.map Page.objects).flatten, none) ∧
    (pagerTrace fetch).length = ps.length := by
  have h := findingsLoop_run fetch ps 0 "" [] hne (by omega)
    (fun i c hi => by simpa using hfetch i c hi) hmid hlast
  constructor
  · unfold GetFindings
    rw [h]
    simp
  · unfold pagerTrace
    rw [h]
    simp [length_cursorsOf]

/-- Witness for claim C5 (amended) at the mocked two-page sequence of the
spec: two findings plus cursor `abc`, then one finding plus empty cursor,
give exactly three findings in order after two fetches. -/
theorem pager_concatenates_pages_witness :
    GetFindings fetchTwoPages = ([f1, f2, f3], none) ∧
    (pagerTrace fetchTwoPages).length = 2 := by
  have h := pager_concatenates_pages fetchTwoPages pages2
    (by decide) (by decide)
    (fun i c _ => by simp [fetchTwoPages])
    (fun i hi => by
      simp only [pages2, List.length_cons, List.length_nil] at hi
      have : i = 0 := by omega
      subst this
      decide)
    (by decide)
  simpa [pages2] using h

/-- Claim C6: in every pager run, request 1 carries the empty cursor —
hence no `list_parameters.page_id` parameter at all — and for every `n`,
the cursor carried by request `n + 1` is exactly the `nextPageID`
returned by request `n`. -/
theorem pager_cursor_handoff (fetch : Nat → String → Except String Page) :
    (pagerTrace fetch).getD 0 "" = "" ∧
    (∀ projectUUID pageSize,
      (getFindingsPageParams projectUUID pageSize
        ((pagerTrace fetch).getD 0 "")).lookup "list_parameters.page_id" = none) ∧
    ∀ n, n + 1 < (pagerTrace fetch).length →
      ∃ p, fetch (n + 1) ((pagerTrace fetch).getD n "") = Except.ok p ∧
           (pagerTrace fetch).getD (n + 1) "" = p.nextPageID := by
  obtain ⟨tl, htl⟩ := findingsLoop_trace_cons fetch 0 "" []
  have hhead : (pagerTrace fetch).getD 0 "" = "" := by
    unfold pagerTrace
    simp [htl]
  refine ⟨hhead, ?_, ?_⟩
  · intro projectUUID pageSize
    rw [hhead]
    simp [getFindingsPageParams, List.lookup]
  · intro n hn
    have h := findingsLoop_chain fetch 0 "" [] n (by simpa [pagerTrace] using hn)
    have harith : 0 + 1 + n = n + 1 := by omega
    rw [harith] at h
    simpa [pagerTrace] using h

/-- The trace of the two-page mock run: the first request carries the
empty cursor, the second carries the cursor `abc` returned by page 1. -/
theorem pagerTrace_fetchTwoPages : pagerTrace fetchTwoPages = ["", "abc"] := by
  have h := findingsLoop_run fetchTwoPages pages2 0 "" []
    (by decide) (by decide)
    (fun i c _ => by simp [fetchTwoPages])
    (fun i hi => by
      simp only [pages2, List.length_cons, List.length_nil] at hi
      have : i = 0 := by omega
      subst this
      decide)
    (by decide)
  unfold pagerTrace
  rw [h]
  decide

/-- Witness for claim C6 at the two-page mock run: request 2 carries
exactly the cursor `abc` that request 1 returned. -/
theorem pager_cursor_handoff_witness :
    (pagerTrace fetchTwoPages).getD 0 "" = "" ∧
    (getFindingsPageParams "P1" 100
      ((pagerTrace fetchTwoPages).getD 0 "")).lookup "list_parameters.page_id" = none ∧
    ∃ p, fetchTwoPages (0 + 1) ((pagerTrace fetchTwoPages).getD 0 "") = Except.ok p ∧
         (pagerTrace fetchTwoPages).getD (0 + 1) "" = p.nextPageID :=
  ⟨(pager_cursor_handoff fetchTwoPages).1,
   (pager_cursor_handoff fetchTwoPages).2.1 "P1" 100,
   (pager_cursor_handoff fetchTwoPages).2.2 0
     (by rw [pagerTrace_fetchTwoPages]; decide)⟩

end EndorApi
